import Mathlib

/-!
Verification of the user-registration service (`app/`): a shallow embedding of
the data model, the repository, the registration service, the request-body
validator and the error middleware, together with theorems settling the
behavioural claims about account creation and activation.

Conventions of the embedding:
* the `users` table (app/database/init.py) is a list of rows; `SELECT … WHERE
  email = $1` with `fetchrow` is `List.find?`;
* timestamps are integers counted in seconds (`timedelta(minutes=1)` is `60`);
* the password hasher (app/core/security.py wraps passlib/argon2, an external
  primitive) is passed in as opaque functions `hash` / `verify`;
* fallible calls return `Except`; stateful operations also return the store.
-/

namespace UserRegistration

/-- One row of the `users` table, per the schema in app/database/init.py
(`id`, `email`, `password_hash`, `is_active`, `activation_code`,
`activation_expires_at`; `created_at` plays no role in any operation and is
omitted).  `id` is the opaque unique identifier (`uuid4` in the source,
modelled as a `Nat`). -/
structure UserDB where
  id : Nat
  email : String
  password_hash : String
  is_active : Bool
  activation_code : String
  activation_expires_at : Int
deriving DecidableEq

/-- Decidable equality of outcomes, for evaluating concrete runs. -/
instance {ε α : Type} [DecidableEq ε] [DecidableEq α] : DecidableEq (Except ε α) :=
  fun a b =>
    match a, b with
    | .ok x, .ok y =>
      if h : x = y then .isTrue (by rw [h])
      else .isFalse (by intro hc; injection hc; contradiction)
    | .ok _, .error _ => .isFalse (by intro hc; injection hc)
    | .error _, .ok _ => .isFalse (by intro hc; injection hc)
    | .error x, .error y =>
      if h : x = y then .isTrue (by rw [h])
      else .isFalse (by intro hc; injection hc; contradiction)

/-- The `users` table. -/
abbrev Store := List UserDB

/-- `UserRepository.get_user_by_email` (app/database/users.py, lines 31-33):
`SELECT * FROM users WHERE email = $1` with `fetchrow`, i.e. the first row
whose email matches, if any. -/
def get_user_by_email (store : Store) (email : String) : Option UserDB :=
  store.find? (fun u => u.email == email)

/-- Store-level failure of a SQL statement.  The schema declares
`email TEXT UNIQUE NOT NULL` (app/database/init.py line 16), so an INSERT of a
duplicate email fails with a uniqueness-constraint violation. -/
inductive DBError where
  | uniqueViolation (constraint : String)
deriving DecidableEq

/-- `UserRepository.create_user` (app/database/users.py, lines 9-29):
computes `expires_at = now + 1 minute`, INSERTs the row with
`is_active = false`, and returns the email.  The INSERT fails with a
uniqueness violation when a row with the same email already exists
(`email TEXT UNIQUE` in the schema). -/
def repo_create_user (store : Store) (user_id : Nat) (email : String)
    (password_hash : String) (code : String) (now : Int) :
    Except DBError (Store × String) :=
  let expires_at : Int := now + 60
  if store.any (fun u => u.email == email) then
    .error (.uniqueViolation "users_email_key")
  else
    .ok (store ++ [{ id := user_id, email := email,
                     password_hash := password_hash, is_active := false,
                     activation_code := code,
                     activation_expires_at := expires_at }], email)

/-- Modelled from the spec: `UserRepository.activate_user` is called by the
service (app/services/users.py line 67: `activate_user(user_db["id"])`) but
its definition is not under src/.  Spec §4.3 gives the contract
`markActive(id)` and §3 says activation "flips `active` to true" for the
identified account; every other field is untouched. -/
def repo_activate_user (store : Store) (user_id : Nat) : Store :=
  store.map (fun u => if u.id == user_id then { u with is_active := true } else u)

/-- Modelled from the spec: the status marker `USER_STATUS_CREATED` is
imported from app/utils/constants.py, which is not under src/; spec §4.1
step 7 and §8 fix the value `"created"`. -/
def USER_STATUS_CREATED : String := "created"

/-- Modelled from the spec: the status marker `USER_STATUS_ACTIVATED` is
imported from app/utils/constants.py, which is not under src/; spec §4.2
step 6 and §8 fix the value `"activated"`. -/
def USER_STATUS_ACTIVATED : String := "activated"

/-- The typed domain failures raised by the service, one constructor per
exception class of app/utils/exceptions/users.py and
app/utils/exceptions/authentication.py, carrying the same payload the class
constructor receives. -/
inductive APIError where
  | userAlreadyExists (email : String)
  | userAlreadyActivated (email : String)
  | invalidActivationCode (code : String)
  | expiredActivationCode (code : String)
  | invalidPassword (email : String)
  | invalidEmail (email : String)
deriving DecidableEq

/-- The HTTP status code each exception class passes to `APIException`
(app/utils/exceptions/users.py and authentication.py). -/
def APIError.status_code : APIError → Nat
  | .userAlreadyExists _ => 409
  | .userAlreadyActivated _ => 409
  | .invalidActivationCode _ => 400
  | .expiredActivationCode _ => 400
  | .invalidPassword _ => 401
  | .invalidEmail _ => 401

/-- The human message each exception class passes to `APIException`. -/
def APIError.message : APIError → String
  | .userAlreadyExists _ => "A user with this email already exists"
  | .userAlreadyActivated _ => "This user account is already activated"
  | .invalidActivationCode _ => "The provided activation code is invalid"
  | .expiredActivationCode _ => "The provided activation code has expired"
  | .invalidPassword _ => "The provided password is incorrect"
  | .invalidEmail _ => "The provided email address is not found"

/-- A failure escaping `UserService.create_user`: either a typed domain
error (an `APIException`), a raw store error that the service does not catch,
or a notifier failure that the service does not catch. -/
inductive ServiceFailure where
  | api (e : APIError)
  | db (e : DBError)
  | delivery (e : String)
deriving DecidableEq

/-- Request body of `POST /users` (app/schemas/users.py, `UserCreate`). -/
structure UserCreate where
  email : String
  password : String
deriving DecidableEq

/-- Request body of `POST /users/activate` (app/schemas/users.py,
`UserActivate`). -/
structure UserActivate where
  code : String
deriving DecidableEq

/-- Response body of both endpoints (app/schemas/users.py, `UserResponse`). -/
structure UserResponse where
  email : String
  status : String
deriving DecidableEq

/-- The Basic-Auth credentials handed to the service
(`fastapi.security.HTTPBasicCredentials`). -/
structure HTTPBasicCredentials where
  username : String
  password : String
deriving DecidableEq

/-- `UserService.create_user` (app/services/users.py, lines 28-42).

* `hash` is `hash_password` (external primitive);
* `code` is the activation code drawn by `_generate_code`;
* `notify` is the outcome of
  `email_client.send_verification_email` (`none` = success, `some e` = the
  delivery error `e` is raised);
* `store_lookup` is the table state the initial `get_user_by_email` sees and
  `store_insert` the state the INSERT runs against — they differ exactly when
  a concurrent write lands between the two calls.

The result pairs the outcome with the final table state.  Note that the
source wraps neither the repository INSERT nor the notifier call in any
`try`/`except`: a `DBError` or a delivery failure propagates unchanged. -/
def create_user (hash : String → String) (store_lookup store_insert : Store)
    (user_id : Nat) (user : UserCreate) (code : String) (now : Int)
    (notify : Option String) : Except ServiceFailure UserResponse × Store :=
  if (get_user_by_email store_lookup user.email).isSome then
    (.error (.api (.userAlreadyExists user.email)), store_insert)
  else
    let password_hash := hash user.password
    match repo_create_user store_insert user_id user.email password_hash code now with
    | .error e => (.error (.db e), store_insert)
    | .ok (store2, created_user_email) =>
      match notify with
      | some e => (.error (.delivery e), store2)
      | none => (.ok { email := created_user_email,
                       status := USER_STATUS_CREATED }, store2)

/-- `UserService.activate_user` (app/services/users.py, lines 45-69).

* `verify` is `verify_password` (external primitive);
* `now` is `datetime.now(timezone.utc)` stripped of its timezone.

The five checks and their order are exactly those of the source; the result
pairs the outcome with the final table state. -/
def activate_user (verify : String → String → Bool) (store : Store)
    (user : UserActivate) (credentials : HTTPBasicCredentials) (now : Int) :
    Except APIError UserResponse × Store :=
  match get_user_by_email store credentials.username with
  | none => (.error (.invalidEmail credentials.username), store)
  | some user_db =>
    if ¬ verify credentials.password user_db.password_hash then
      (.error (.invalidPassword credentials.username), store)
    else if user_db.is_active then
      (.error (.userAlreadyActivated credentials.username), store)
    else if user_db.activation_code ≠ user.code then
      (.error (.invalidActivationCode user.code), store)
    else if user_db.activation_expires_at < now then
      (.error (.expiredActivationCode user.code), store)
    else
      (.ok { email := user_db.email, status := USER_STATUS_ACTIVATED },
       repo_activate_user store user_db.id)

/-- The HTTP status the API surface attaches to an activation outcome: the
route decorator declares `status_code=status.HTTP_200_OK` for success
(app/routers/users.py) and the `APIException` handler in main.py replies with
`exc.status_code`. -/
def activate_http_status : Except APIError UserResponse → Nat
  | .ok _ => 200
  | .error e => e.status_code

/-- The HTTP status the API surface attaches to a creation outcome: the route
decorator declares `status_code=status.HTTP_201_CREATED`, the `APIException`
handler in main.py replies with `exc.status_code`, and any other exception
falls through to `ErrorHandlingMiddleware`, which replies 500. -/
def create_http_status : Except ServiceFailure UserResponse → Nat
  | .ok _ => 201
  | .error (.api e) => e.status_code
  | .error (.db _) => 500
  | .error (.delivery _) => 500

/-- `UserService._generate_code` (app/services/users.py, lines 24-25), as a
function of the draw `n = random.randint(0, 9999)` (both bounds inclusive):
the f-string `f"{n:04d}"` renders the decimal representation of `n`
left-padded with `'0'` to a minimum width of 4. -/
def generate_code (n : Nat) : String :=
  let s := Nat.repr n
  String.mk (List.replicate (4 - s.length) '0') ++ s

/-- The numeric value of a decimal-digit string (specification-side helper
used to state that `generate_code` reaches every code). -/
def decimal_value (s : String) : Nat :=
  s.data.foldl (fun a c => a * 10 + (c.toNat - 48)) 0

/-- Whitespace as removed by Python `str.strip()`: the ASCII whitespace
characters plus NBSP.  (`str.strip` removes the full Unicode whitespace set;
every further member is, like these, not a digit, so the acceptance
behaviour modelled below is unaffected.) -/
def py_isspace (c : Char) : Bool :=
  c = ' ' || c = '\t' || c = '\n' || c = '\r'
    || c = '\x0b' || c = '\x0c' || c = '\xa0'

/-- `not value.strip()` in Python is true exactly when every character of
`value` is whitespace (in particular when `value` is empty). -/
def py_strip_is_empty (s : String) : Bool :=
  s.data.all py_isspace

/-- Python `str.isdigit` on one character: true for the ASCII digits `0`-`9`
and for every other Unicode character with the digit property.  The model
lists, next to the ASCII digits, the non-ASCII digit ranges used in this
development (superscript digits, Arabic-Indic digits, Devanagari digits);
CPython accepts the remaining scripts' digit characters the same way. -/
def py_isdigit_char (c : Char) : Bool :=
  c.isDigit
    || c = '¹' || c = '²' || c = '³'
    || (0x2070 ≤ c.toNat && c.toNat ≤ 0x2079)
    || (0x660 ≤ c.toNat && c.toNat ≤ 0x669)
    || (0x966 ≤ c.toNat && c.toNat ≤ 0x96F)

/-- Python `str.isdigit()`: false on the empty string, else true iff every
character is a digit character. -/
def py_isdigit (s : String) : Bool :=
  !s.data.isEmpty && s.data.all py_isdigit_char

/-- `UserActivate.check_code_value` (app/schemas/users.py, lines 13-20): the
pydantic `field_validator` for `code`.  A raised `ValueError` becomes a
pydantic validation failure, which the API surface answers with HTTP 422
(main.py, `validation_exception_handler`) before the route handler runs. -/
def check_code_value (value : String) : Except String String :=
  if py_strip_is_empty value then
    .error "Activation code cannot be empty"
  else if value.length ≠ 4 then
    .error "Activation code must be exactly 4 characters long"
  else if ¬ py_isdigit value then
    .error "Activation code must contain only digits"
  else
    .ok value

/-- The activation endpoint as the API surface composes it
(app/routers/users.py, main.py): the request body is validated by
constructing `UserActivate` before the handler runs; on a validation failure
the response is HTTP 422 and the service (and with it the store) is never
touched; otherwise the handler calls `UserService.activate_user` and the
outcome is mapped to its HTTP status.  Returns the status paired with the
final store. -/
def activate_route (verify : String → String → Bool) (store : Store)
    (code : String) (credentials : HTTPBasicCredentials) (now : Int) :
    Nat × Store :=
  match check_code_value code with
  | .error _ => (422, store)
  | .ok c =>
    let r := activate_user verify store { code := c } credentials now
    (activate_http_status r.1, r.2)

/-- What the error middleware can observe of a raised Python exception: its
class name (`type(exc).__name__`) and its `str(exc)` rendering. -/
structure ExcInfo where
  type_name : String
  text : String
deriving DecidableEq

/-- The uniform error envelope `{error: {code, message}}`. -/
structure JSONErrorBody where
  code : String
  message : String
deriving DecidableEq

/-- An HTTP response as the middleware produces it. -/
structure HTTPResponse where
  status_code : Nat
  error : JSONErrorBody
deriving DecidableEq

/-- The `except` branch of `ErrorHandlingMiddleware.dispatch`
(app/core/middleware.py, lines 49-65): any exception is answered with
HTTP 500, code `INTERNAL_SERVER_ERROR`, and the message
`f"[{type(exc).__name__}] - An internal error occurred. Please try again
later."`. -/
def internal_error_response (exc : ExcInfo) : HTTPResponse :=
  { status_code := 500,
    error := { code := "INTERNAL_SERVER_ERROR",
               message := "[" ++ exc.type_name
                 ++ "] - An internal error occurred. Please try again later." } }

/-- `ErrorHandlingMiddleware.dispatch`, `try`/`except` structure: the inner
handler either returns a response or raises, and a raised exception is
turned into `internal_error_response`. -/
def middleware_dispatch (result : Except ExcInfo HTTPResponse) : HTTPResponse :=
  match result with
  | .ok r => r
  | .error exc => internal_error_response exc

/-- The body part of the request log line: the middleware interpolates
`await request.json()` for POST/PUT/PATCH requests and the literal `"None"`
otherwise (app/core/middleware.py, lines 32-37). -/
def logged_body (method : String) (json_body : String) : String :=
  if method = "POST" ∨ method = "PUT" ∨ method = "PATCH" then json_body
  else "None"

/-- The message of the log line `ErrorHandlingMiddleware.dispatch` writes
before calling `call_next` (app/core/middleware.py, lines 32-37). -/
def request_log_line (method path : String) (client_host : Option String)
    (json_body : String) : String :=
  "→ " ++ method ++ " " ++ path
    ++ " | Remote: " ++ (match client_host with | some h => h | none => "unknown")
    ++ " | JSON Body: " ++ logged_body method json_body

/-- The full log record of that statement: it is emitted with `logger.info`,
so the level is INFO. -/
def request_log (method path : String) (client_host : Option String)
    (json_body : String) : String × String :=
  ("INFO", request_log_line method path client_host json_body)

/-- The f-string rendering of the parsed JSON body of `POST /users`
(a Python dict with keys `email` and `password`), as it appears interpolated
into the log line. -/
def user_create_body_repr (email password : String) : String :=
  "\x7b'email': '" ++ email ++ "', 'password': '" ++ password ++ "'\x7d"

/-- A concrete stand-in for the external `verify_password` primitive, used
only to instantiate witnesses: it accepts exactly when the plaintext equals
the stored hash (i.e. the matching hasher is the identity). -/
def verify_eq (plain hashed : String) : Bool :=
  plain == hashed

/-- The identity stand-in for the external `hash_password` primitive,
matching `verify_eq`; used only to instantiate witnesses. -/
def hash_id (password : String) : String :=
  password

/-- C1: an activation request whose Basic-Auth email resolves to an account,
whose password verifies, on a not-yet-active account, with the matching code,
strictly before the stored expiry, flips the account's active flag, persists
it, and returns the account's email with status "activated" (HTTP 200). -/
theorem activate_user_success
    (verify : String → String → Bool) (store : Store) (user : UserActivate)
    (credentials : HTTPBasicCredentials) (now : Int) (u : UserDB)
    (hfind : get_user_by_email store credentials.username = some u)
    (hpw : verify credentials.password u.password_hash = true)
    (hactive : u.is_active = false)
    (hcode : u.activation_code = user.code)
    (hexp : now < u.activation_expires_at) :
    activate_user verify store user credentials now
      = (.ok { email := u.email, status := USER_STATUS_ACTIVATED },
         repo_activate_user store u.id)
    ∧ activate_http_status (activate_user verify store user credentials now).1 = 200
    ∧ { u with is_active := true } ∈ (activate_user verify store user credentials now).2 := by
  have hnl : ¬ (u.activation_expires_at < now) := by omega
  have hmem : u ∈ store := List.mem_of_find?_eq_some hfind
  have heq : activate_user verify store user credentials now
      = (.ok { email := u.email, status := USER_STATUS_ACTIVATED },
         repo_activate_user store u.id) := by
    simp [activate_user, hfind, hpw, hactive, hcode, hnl]
  refine ⟨heq, by rw [heq]; rfl, ?_⟩
  rw [heq]
  have := List.mem_map_of_mem
    (fun x => if x.id == u.id then { x with is_active := true } else x) hmem
  simpa [repo_activate_user] using this

/-- Witness for C1 at a concrete store, credentials and clock. -/
theorem activate_user_success_witness :
    activate_user verify_eq
        [{ id := 1, email := "a@x.com", password_hash := "p1", is_active := false,
           activation_code := "1234", activation_expires_at := 100 }]
        { code := "1234" } { username := "a@x.com", password := "p1" } 40
      = (.ok { email := "a@x.com", status := USER_STATUS_ACTIVATED },
         repo_activate_user
           [{ id := 1, email := "a@x.com", password_hash := "p1", is_active := false,
              activation_code := "1234", activation_expires_at := 100 }] 1)
    ∧ activate_http_status (activate_user verify_eq
        [{ id := 1, email := "a@x.com", password_hash := "p1", is_active := false,
           activation_code := "1234", activation_expires_at := 100 }]
        { code := "1234" } { username := "a@x.com", password := "p1" } 40).1 = 200
    ∧ ({ id := 1, email := "a@x.com", password_hash := "p1", is_active := true,
         activation_code := "1234", activation_expires_at := 100 } : UserDB)
        ∈ (activate_user verify_eq
            [{ id := 1, email := "a@x.com", password_hash := "p1", is_active := false,
               activation_code := "1234", activation_expires_at := 100 }]
            { code := "1234" } { username := "a@x.com", password := "p1" } 40).2 :=
  activate_user_success verify_eq
    [{ id := 1, email := "a@x.com", password_hash := "p1", is_active := false,
       activation_code := "1234", activation_expires_at := 100 }]
    { code := "1234" } { username := "a@x.com", password := "p1" } 40
    { id := 1, email := "a@x.com", password_hash := "p1", is_active := false,
      activation_code := "1234", activation_expires_at := 100 }
    (by decide) (by decide) (by decide) (by decide) (by decide)

/-- C2: the five checks of `activate_user` run in the fixed order email →
password → already-active → code → expiry, and the first failing check
determines the reported error; each clause below assumes only that the
earlier checks pass, so a wrong password is reported whatever the code or
expiry, and an already-active account is reported before code and expiry are
examined. -/
theorem activate_user_check_order
    (verify : String → String → Bool) (store : Store) (user : UserActivate)
    (credentials : HTTPBasicCredentials) (now : Int) :
    (get_user_by_email store credentials.username = none →
      activate_user verify store user credentials now
        = (.error (.invalidEmail credentials.username), store))
    ∧ (∀ u, get_user_by_email store credentials.username = some u →
        verify credentials.password u.password_hash = false →
        activate_user verify store user credentials now
          = (.error (.invalidPassword credentials.username), store))
    ∧ (∀ u, get_user_by_email store credentials.username = some u →
        verify credentials.password u.password_hash = true →
        u.is_active = true →
        activate_user verify store user credentials now
          = (.error (.userAlreadyActivated credentials.username), store))
    ∧ (∀ u, get_user_by_email store credentials.username = some u →
        verify credentials.password u.password_hash = true →
        u.is_active = false →
        u.activation_code ≠ user.code →
        activate_user verify store user credentials now
          = (.error (.invalidActivationCode user.code), store))
    ∧ (∀ u, get_user_by_email store credentials.username = some u →
        verify credentials.password u.password_hash = true →
        u.is_active = false →
        u.activation_code = user.code →
        u.activation_expires_at < now →
        activate_user verify store user credentials now
          = (.error (.expiredActivationCode user.code), store)) := by
  refine ⟨?_, ?_, ?_, ?_, ?_⟩
  · intro h
    simp [activate_user, h]
  · intro u h hpw
    simp [activate_user, h, hpw]
  · intro u h hpw hact
    simp [activate_user, h, hpw, hact]
  · intro u h hpw hact hcode
    simp [activate_user, h, hpw, hact, hcode]
  · intro u h hpw hact hcode hexp
    simp [activate_user, h, hpw, hact, hcode, hexp]

/-- Witness for C2: a wrong password is reported on an account whose stored
code also mismatches the supplied one and is already expired. -/
theorem activate_user_check_order_witness :
    activate_user verify_eq
        [{ id := 1, email := "a@x.com", password_hash := "p1", is_active := false,
           activation_code := "1234", activation_expires_at := 100 }]
        { code := "9999" } { username := "a@x.com", password := "wrong" } 999
      = (.error (.invalidPassword "a@x.com"),
         [{ id := 1, email := "a@x.com", password_hash := "p1", is_active := false,
            activation_code := "1234", activation_expires_at := 100 }]) :=
  (activate_user_check_order verify_eq
    [{ id := 1, email := "a@x.com", password_hash := "p1", is_active := false,
       activation_code := "1234", activation_expires_at := 100 }]
    { code := "9999" } { username := "a@x.com", password := "wrong" } 999).2.1
    { id := 1, email := "a@x.com", password_hash := "p1", is_active := false,
      activation_code := "1234", activation_expires_at := 100 }
    (by decide) (by decide)

/-- C3 (amended): once the email, password, already-active and code checks
pass, the request is rejected as expired exactly when the current time is
strictly greater than the stored expiry; at the instant the current time
equals `activation_expires_at` the activation succeeds. -/
theorem activate_user_expiry_strict
    (verify : String → String → Bool) (store : Store) (user : UserActivate)
    (credentials : HTTPBasicCredentials) (now : Int) (u : UserDB)
    (hfind : get_user_by_email store credentials.username = some u)
    (hpw : verify credentials.password u.password_hash = true)
    (hactive : u.is_active = false)
    (hcode : u.activation_code = user.code) :
    ((activate_user verify store user credentials now).1
        = .error (.expiredActivationCode user.code)
      ↔ u.activation_expires_at < now)
    ∧ (now = u.activation_expires_at →
        (activate_user verify store user credentials now).1
          = .ok { email := u.email, status := USER_STATUS_ACTIVATED }) := by
  constructor
  · by_cases hlt : u.activation_expires_at < now
    · simp [activate_user, hfind, hpw, hactive, hcode, hlt]
    · simp [activate_user, hfind, hpw, hactive, hcode, hlt]
  · intro h
    have hnl : ¬ (u.activation_expires_at < now) := by omega
    simp [activate_user, hfind, hpw, hactive, hcode, hnl]

/-- Witness for C3 (amended), at a clock one tick past the stored expiry. -/
theorem activate_user_expiry_strict_witness :
    ((activate_user verify_eq
        [{ id := 1, email := "a@x.com", password_hash := "p1", is_active := false,
           activation_code := "1234", activation_expires_at := 100 }]
        { code := "1234" } { username := "a@x.com", password := "p1" } 101).1
      = .error (.expiredActivationCode "1234")
      ↔ (100 : Int) < 101)
    ∧ ((101 : Int) = 100 →
        (activate_user verify_eq
          [{ id := 1, email := "a@x.com", password_hash := "p1", is_active := false,
             activation_code := "1234", activation_expires_at := 100 }]
          { code := "1234" } { username := "a@x.com", password := "p1" } 101).1
          = .ok { email := "a@x.com", status := USER_STATUS_ACTIVATED }) :=
  activate_user_expiry_strict verify_eq
    [{ id := 1, email := "a@x.com", password_hash := "p1", is_active := false,
       activation_code := "1234", activation_expires_at := 100 }]
    { code := "1234" } { username := "a@x.com", password := "p1" } 101
    { id := 1, email := "a@x.com", password_hash := "p1", is_active := false,
      activation_code := "1234", activation_expires_at := 100 }
    (by decide) (by decide) (by decide) (by decide)

/-- Counterexample to C3 as stated: at the instant the current time equals
the stored `activationExpiresAt` (both 100 here), the code's strict
comparison `activation_expires_at < now` is false, so the request is not
rejected as expired — it succeeds. -/
theorem activate_user_at_expiry_instant_succeeds :
    (activate_user verify_eq
        [{ id := 1, email := "a@x.com", password_hash := "p1", is_active := false,
           activation_code := "1234", activation_expires_at := 100 }]
        { code := "1234" } { username := "a@x.com", password := "p1" } 100).1
      = .ok { email := "a@x.com", status := "activated" }
    ∧ (activate_user verify_eq
        [{ id := 1, email := "a@x.com", password_hash := "p1", is_active := false,
           activation_code := "1234", activation_expires_at := 100 }]
        { code := "1234" } { username := "a@x.com", password := "p1" } 100).1
      ≠ .error (.expiredActivationCode "1234") := by
  decide

/-- C4: when an account with the requested email already exists, creation
fails with `UserAlreadyExists` carrying that email (HTTP 409), whatever the
supplied password, code draw or notifier outcome, and the store is returned
unchanged. -/
theorem create_user_duplicate_email
    (hash : String → String) (store : Store) (user_id : Nat)
    (user : UserCreate) (code : String) (now : Int) (notify : Option String)
    (u : UserDB) (hfind : get_user_by_email store user.email = some u) :
    create_user hash store store user_id user code now notify
      = (.error (.api (.userAlreadyExists user.email)), store)
    ∧ create_http_status
        (create_user hash store store user_id user code now notify).1 = 409 := by
  have hsome : (get_user_by_email store user.email).isSome = true := by
    simp [hfind]
  have heq : create_user hash store store user_id user code now notify
      = (.error (.api (.userAlreadyExists user.email)), store) := by
    simp [create_user, hsome]
  exact ⟨heq, by rw [heq]; rfl⟩

/-- Witness for C4: the second creation for a taken email, with a different
password, is refused with 409 and inserts nothing. -/
theorem create_user_duplicate_email_witness :
    create_user hash_id
        [{ id := 1, email := "a@x.com", password_hash := "p1", is_active := false,
           activation_code := "1234", activation_expires_at := 100 }]
        [{ id := 1, email := "a@x.com", password_hash := "p1", is_active := false,
           activation_code := "1234", activation_expires_at := 100 }]
        2 { email := "a@x.com", password := "different" } "5678" 40 none
      = (.error (.api (.userAlreadyExists "a@x.com")),
         [{ id := 1, email := "a@x.com", password_hash := "p1", is_active := false,
            activation_code := "1234", activation_expires_at := 100 }])
    ∧ create_http_status (create_user hash_id
        [{ id := 1, email := "a@x.com", password_hash := "p1", is_active := false,
           activation_code := "1234", activation_expires_at := 100 }]
        [{ id := 1, email := "a@x.com", password_hash := "p1", is_active := false,
           activation_code := "1234", activation_expires_at := 100 }]
        2 { email := "a@x.com", password := "different" } "5678" 40 none).1 = 409 :=
  create_user_duplicate_email hash_id
    [{ id := 1, email := "a@x.com", password_hash := "p1", is_active := false,
       activation_code := "1234", activation_expires_at := 100 }]
    2 { email := "a@x.com", password := "different" } "5678" 40 none
    { id := 1, email := "a@x.com", password_hash := "p1", is_active := false,
      activation_code := "1234", activation_expires_at := 100 }
    (by decide)

/-- C5 (amended): `create_user` wraps the INSERT in no `try`/`except`, so a
uniqueness-constraint violation raised by the store after the by-email
lookup found nothing propagates out of the service as the raw store error —
it is not translated into `UserAlreadyExists` (nor any `APIException`), and
the generic error middleware answers it with HTTP 500. -/
theorem create_user_unique_violation_propagates
    (hash : String → String) (store_lookup store_insert : Store)
    (user_id : Nat) (user : UserCreate) (code : String) (now : Int)
    (notify : Option String)
    (hnone : get_user_by_email store_lookup user.email = none)
    (hdup : store_insert.any (fun u => u.email == user.email) = true) :
    create_user hash store_lookup store_insert user_id user code now notify
      = (.error (.db (.uniqueViolation "users_email_key")), store_insert)
    ∧ (∀ e : APIError,
        (create_user hash store_lookup store_insert user_id user code now notify).1
          ≠ .error (.api e))
    ∧ create_http_status
        (create_user hash store_lookup store_insert user_id user code now notify).1
          = 500 := by
  have hno : (get_user_by_email store_lookup user.email).isSome = false := by
    simp [hnone]
  have heq : create_user hash store_lookup store_insert user_id user code now notify
      = (.error (.db (.uniqueViolation "users_email_key")), store_insert) := by
    simp [create_user, hno, repo_create_user, hdup]
  refine ⟨heq, ?_, by rw [heq]; rfl⟩
  intro e
  rw [heq]
  simp

/-- Witness for C5 (amended): the lookup sees an empty table, a concurrent
write lands before the INSERT, and the store error escapes untranslated. -/
theorem create_user_unique_violation_propagates_witness :
    create_user hash_id []
        [{ id := 1, email := "a@x.com", password_hash := "p0", is_active := false,
           activation_code := "1111", activation_expires_at := 100 }]
        2 { email := "a@x.com", password := "p1" } "1234" 50 none
      = (.error (.db (.uniqueViolation "users_email_key")),
         [{ id := 1, email := "a@x.com", password_hash := "p0", is_active := false,
            activation_code := "1111", activation_expires_at := 100 }])
    ∧ (∀ e : APIError,
        (create_user hash_id []
          [{ id := 1, email := "a@x.com", password_hash := "p0", is_active := false,
             activation_code := "1111", activation_expires_at := 100 }]
          2 { email := "a@x.com", password := "p1" } "1234" 50 none).1
          ≠ .error (.api e))
    ∧ create_http_status (create_user hash_id []
        [{ id := 1, email := "a@x.com", password_hash := "p0", is_active := false,
           activation_code := "1111", activation_expires_at := 100 }]
        2 { email := "a@x.com", password := "p1" } "1234" 50 none).1 = 500 :=
  create_user_unique_violation_propagates hash_id []
    [{ id := 1, email := "a@x.com", password_hash := "p0", is_active := false,
       activation_code := "1111", activation_expires_at := 100 }]
    2 { email := "a@x.com", password := "p1" } "1234" 50 none
    (by decide) (by decide)

/-- Counterexample to C5 as stated: in the duplicate-insert race the service
returns the raw uniqueness-violation store error, not `UserAlreadyExists`. -/
theorem create_user_race_not_translated :
    (create_user hash_id []
        [{ id := 1, email := "a@x.com", password_hash := "p0", is_active := false,
           activation_code := "1111", activation_expires_at := 100 }]
        2 { email := "a@x.com", password := "p1" } "1234" 50 none).1
      = .error (.db (.uniqueViolation "users_email_key"))
    ∧ (create_user hash_id []
        [{ id := 1, email := "a@x.com", password_hash := "p0", is_active := false,
           activation_code := "1111", activation_expires_at := 100 }]
        2 { email := "a@x.com", password := "p1" } "1234" 50 none).1
      ≠ .error (.api (.userAlreadyExists "a@x.com")) := by
  decide

/-- C7: when the notifier fails after the INSERT succeeded, `create_user`
propagates the delivery error and performs no compensation: the freshly
inserted row — inactive, with its code and its expiry `now + 1 minute` —
remains in the store and is found by a subsequent by-email lookup. -/
theorem create_user_delivery_failure_keeps_row
    (hash : String → String) (store : Store) (user_id : Nat)
    (user : UserCreate) (code : String) (now : Int) (err : String)
    (hnone : get_user_by_email store user.email = none) :
    create_user hash store store user_id user code now (some err)
      = (.error (.delivery err),
         store ++ [{ id := user_id, email := user.email,
                     password_hash := hash user.password, is_active := false,
                     activation_code := code, activation_expires_at := now + 60 }])
    ∧ get_user_by_email
        (create_user hash store store user_id user code now (some err)).2 user.email
      = some { id := user_id, email := user.email,
               password_hash := hash user.password, is_active := false,
               activation_code := code, activation_expires_at := now + 60 } := by
  have hno : (get_user_by_email store user.email).isSome = false := by
    simp [hnone]
  have hnotin : store.any (fun u => u.email == user.email) = false := by
    have hall := List.find?_eq_none.mp hnone
    simp only [List.any_eq_false]
    intro u hu
    simpa using hall u hu
  have heq : create_user hash store store user_id user code now (some err)
      = (.error (.delivery err),
         store ++ [{ id := user_id, email := user.email,
                     password_hash := hash user.password, is_active := false,
                     activation_code := code, activation_expires_at := now + 60 }]) := by
    simp [create_user, hno, repo_create_user, hnotin]
  refine ⟨heq, ?_⟩
  rw [heq]
  simp only [get_user_by_email, List.find?_append]
  rw [get_user_by_email] at hnone
  rw [hnone]
  simp

/-- Witness for C7 at a concrete store and a failing SMTP call. -/
theorem create_user_delivery_failure_keeps_row_witness :
    create_user hash_id [] [] 1 { email := "a@x.com", password := "p1" } "1234" 40
        (some "smtp down")
      = (.error (.delivery "smtp down"),
         [] ++ [{ id := 1, email := "a@x.com", password_hash := hash_id "p1",
                  is_active := false, activation_code := "1234",
                  activation_expires_at := 40 + 60 }])
    ∧ get_user_by_email
        (create_user hash_id [] [] 1 { email := "a@x.com", password := "p1" } "1234" 40
          (some "smtp down")).2 "a@x.com"
      = some { id := 1, email := "a@x.com", password_hash := hash_id "p1",
               is_active := false, activation_code := "1234",
               activation_expires_at := 40 + 60 } :=
  create_user_delivery_failure_keeps_row hash_id [] 1
    { email := "a@x.com", password := "p1" } "1234" 40 "smtp down" (by decide)

/-- C8 (amended): every uncaught exception is answered with HTTP 500 and
code `INTERNAL_SERVER_ERROR`, and the body depends only on the exception's
class name — `str(exc)` and every other detail are absent, so two failures
raising the same exception class produce identical responses; the class
name itself, however, is embedded in the message. -/
theorem middleware_masks_all_but_type_name (exc : ExcInfo) :
    (middleware_dispatch (.error exc)).status_code = 500
    ∧ (middleware_dispatch (.error exc)).error.code = "INTERNAL_SERVER_ERROR"
    ∧ (∀ exc' : ExcInfo, exc'.type_name = exc.type_name →
        middleware_dispatch (.error exc') = middleware_dispatch (.error exc))
    ∧ (∃ p q, (middleware_dispatch (.error exc)).error.message
        = p ++ exc.type_name ++ q) := by
  refine ⟨rfl, rfl, ?_, "[", "] - An internal error occurred. Please try again later.", rfl⟩
  intro exc' h
  simp [middleware_dispatch, internal_error_response, h]

/-- Witness for C8 (amended): two exceptions of the same class but with
different internal texts yield identical responses. -/
theorem middleware_masks_all_but_type_name_witness :
    middleware_dispatch (.error { type_name := "ValueError", text := "division by zero" })
      = middleware_dispatch (.error { type_name := "ValueError", text := "other detail" }) :=
  (middleware_masks_all_but_type_name
      { type_name := "ValueError", text := "other detail" }).2.2.1
    { type_name := "ValueError", text := "division by zero" } rfl

/-- Counterexample to C8 as stated: two runs failing with exceptions of
different classes produce different response bodies, because the message
embeds `type(exc).__name__`. -/
theorem middleware_bodies_differ_across_exception_types :
    middleware_dispatch (.error { type_name := "ValueError", text := "x" })
      ≠ middleware_dispatch (.error { type_name := "KeyError", text := "x" })
    ∧ (middleware_dispatch (.error { type_name := "ValueError", text := "x" })).error.message
      = "[ValueError] - An internal error occurred. Please try again later." := by
  constructor
  · intro h
    have := congrArg (fun r => r.error.message) h
    simp [middleware_dispatch, internal_error_response] at this
  · rfl

/-- C10: for every POST, PUT or PATCH request the middleware's pre-dispatch
log record is written at level INFO and ends with the request's full JSON
body; in particular, for `POST /users` the plaintext password occurs
verbatim inside the logged line. -/
theorem request_log_contains_plaintext_password :
    (∀ (method path : String) (host : Option String) (body : String),
      method = "POST" ∨ method = "PUT" ∨ method = "PATCH" →
      (request_log method path host body).1 = "INFO"
      ∧ ∃ p, (request_log method path host body).2 = p ++ body)
    ∧ (∀ (email password path : String) (host : Option String),
        ∃ p q, (request_log "POST" path host (user_create_body_repr email password)).2
          = p ++ (password ++ q)) := by
  constructor
  · intro method path host body h
    refine ⟨rfl, "→ " ++ method ++ " " ++ path ++ " | Remote: "
      ++ (match host with | some h => h | none => "unknown") ++ " | JSON Body: ", ?_⟩
    have hb : logged_body method body = body := by
      simp [logged_body, h]
    simp [request_log, request_log_line, hb, String.append_assoc]
  · intro email password path host
    refine ⟨"→ " ++ "POST" ++ " " ++ path ++ " | Remote: "
      ++ (match host with | some h => h | none => "unknown") ++ " | JSON Body: "
      ++ "\x7b'email': '" ++ email ++ "', 'password': '",
      "'\x7d", ?_⟩
    have hb : logged_body "POST" (user_create_body_repr email password)
        = user_create_body_repr email password := by
      simp [logged_body]
    simp only [request_log, request_log_line, hb]
    simp [user_create_body_repr, String.append_assoc]
    rw [← String.append_assoc " | JSON Body: " "\x7b'email': '",
      show (" | JSON Body: " ++ "\x7b'email': '" : String) = " | JSON Body: \x7b'email': '"
        by decide]

/-- Witness for C10 at a concrete registration request. -/
theorem request_log_contains_plaintext_password_witness :
    ((request_log "POST" "/users" (some "127.0.0.1") "BODY").1 = "INFO"
      ∧ ∃ p, (request_log "POST" "/users" (some "127.0.0.1") "BODY").2 = p ++ "BODY")
    ∧ ∃ p q, (request_log "POST" "/users" (some "127.0.0.1")
        (user_create_body_repr "a@x.com" "hunter2")).2 = p ++ ("hunter2" ++ q) :=
  ⟨request_log_contains_plaintext_password.1 "POST" "/users" (some "127.0.0.1")
      "BODY" (Or.inl rfl),
   request_log_contains_plaintext_password.2 "a@x.com" "hunter2" "/users"
      (some "127.0.0.1")⟩

/-- An ASCII decimal digit has code point between 48 and 57. -/
theorem char_isDigit_toNat {c : Char} (h : c.isDigit = true) :
    48 ≤ c.toNat ∧ c.toNat ≤ 57 := by
  simp only [Char.isDigit, Bool.and_eq_true, decide_eq_true_eq, Char.le_def,
    UInt32.le_def, BitVec.le_def] at h
  exact ⟨h.1, h.2⟩

/-- An ASCII decimal digit is not whitespace. -/
theorem isDigit_not_py_isspace {c : Char} (h : c.isDigit = true) :
    py_isspace c = false := by
  have hb := char_isDigit_toNat h
  cases hsp : py_isspace c with
  | false => rfl
  | true =>
    exfalso
    simp only [py_isspace, Bool.or_eq_true, decide_eq_true_eq] at hsp
    rcases hsp with (((((h1 | h1) | h1) | h1) | h1) | h1) | h1 <;> subst h1 <;>
      exact absurd h (by decide)

/-- An ASCII decimal digit satisfies Python `str.isdigit`. -/
theorem isDigit_py_isdigit_char {c : Char} (h : c.isDigit = true) :
    py_isdigit_char c = true := by
  simp [py_isdigit_char, h]

/-- C6 (amended): the activation-code validator accepts a string iff it is
not entirely whitespace, has exactly 4 characters, and every character is a
digit in the sense of Python `str.isdigit` — a superset of the decimal
digits 0-9; in particular every 4-character string of ASCII digits is
accepted, and every rejected string is answered with HTTP 422 by the API
surface with the service and store never touched. -/
theorem check_code_value_accepts_iff (value : String) :
    ((check_code_value value).isOk = true ↔
      py_strip_is_empty value = false ∧ value.length = 4 ∧ py_isdigit value = true)
    ∧ (value.length = 4 → value.data.all Char.isDigit = true →
        (check_code_value value).isOk = true)
    ∧ ((check_code_value value).isOk = false →
        ∀ (verify : String → String → Bool) (store : Store)
          (credentials : HTTPBasicCredentials) (now : Int),
          activate_route verify store value credentials now = (422, store)) := by
  have accept_of : py_strip_is_empty value = false → value.length = 4 →
      py_isdigit value = true → (check_code_value value).isOk = true := by
    intro h1 h2 h3
    simp [check_code_value, h1, h2, h3, Except.isOk, Except.toBool]
  refine ⟨⟨?_, fun h => accept_of h.1 h.2.1 h.2.2⟩, ?_, ?_⟩
  · intro h
    by_cases h1 : py_strip_is_empty value
    · simp [check_code_value, h1, Except.isOk, Except.toBool] at h
    · by_cases h2 : value.length = 4
      · by_cases h3 : py_isdigit value
        · exact ⟨by simpa using h1, h2, h3⟩
        · simp [check_code_value, h1, h2, h3, Except.isOk, Except.toBool] at h
      · simp [check_code_value, h1, h2, Except.isOk, Except.toBool] at h
  · intro hlen hdig
    obtain ⟨c, t, hct⟩ : ∃ c t, value.data = c :: t := by
      cases hd : value.data with
      | nil =>
        have h4 : value.data.length = 4 := hlen
        rw [hd] at h4
        simp at h4
      | cons c t => exact ⟨c, t, rfl⟩
    have hcdig : c.isDigit = true := by
      simpa using List.all_eq_true.mp hdig c (by rw [hct]; exact List.mem_cons_self c t)
    have h1 : py_strip_is_empty value = false := by
      cases hall : py_strip_is_empty value with
      | false => rfl
      | true =>
        exfalso
        rw [py_strip_is_empty] at hall
        have := List.all_eq_true.mp hall c (by rw [hct]; exact List.mem_cons_self c t)
        rw [isDigit_not_py_isspace hcdig] at this
        exact Bool.false_ne_true this
    have h3 : py_isdigit value = true := by
      simp only [py_isdigit, Bool.and_eq_true, Bool.not_eq_true']
      refine ⟨by simp [hct], ?_⟩
      refine List.all_eq_true.mpr fun x hx => ?_
      simpa using isDigit_py_isdigit_char (by simpa using List.all_eq_true.mp hdig x hx)
    exact accept_of h1 hlen h3
  · intro hko verify store credentials now
    cases hc : check_code_value value with
    | error m => simp [activate_route, hc]
    | ok c =>
      rw [hc] at hko
      simp [Except.isOk, Except.toBool] at hko

/-- Witness for C6 (amended): "1234" is accepted; the malformed "12ab" is
answered with 422 and the store comes back untouched. -/
theorem check_code_value_witness :
    (check_code_value "1234").isOk = true
    ∧ activate_route verify_eq [] "12ab" { username := "a@x.com", password := "p" } 0
        = (422, []) :=
  ⟨(check_code_value_accepts_iff "1234").2.1 (by decide) (by decide),
   (check_code_value_accepts_iff "12ab").2.2 (by decide) verify_eq []
     { username := "a@x.com", password := "p" } 0⟩

/-- Counterexample to C6 as stated: `"²²²²"` (four U+00B2 SUPERSCRIPT TWO
characters) is accepted by the validator — Python `str.isdigit` is true for
it — although it does not consist of the decimal digits 0-9. -/
theorem check_code_value_accepts_superscript :
    (check_code_value "²²²²").isOk = true
    ∧ "²²²²".length = 4
    ∧ "²²²²".data.all Char.isDigit = false := by
  decide

/-- `Nat.digitChar` of a value below 10 is an ASCII decimal digit. -/
theorem digitChar_isDigit {m : Nat} (h : m < 10) : (Nat.digitChar m).isDigit = true := by
  have hall : ∀ k < 10, (Nat.digitChar k).isDigit = true := by decide
  exact hall m h

/-- The code point of `Nat.digitChar` of a value below 10. -/
theorem digitChar_toNat {m : Nat} (h : m < 10) : (Nat.digitChar m).toNat = 48 + m := by
  have hall : ∀ k < 10, (Nat.digitChar k).toNat = 48 + k := by decide
  exact hall m h

/-- One unfolding step of `Nat.toDigitsCore`. -/
theorem toDigitsCore_succ (b f n : Nat) (ds : List Char) :
    Nat.toDigitsCore b (f + 1) n ds =
      if n / b = 0 then Nat.digitChar (n % b) :: ds
      else Nat.toDigitsCore b f (n / b) (Nat.digitChar (n % b) :: ds) := by
  simp [Nat.toDigitsCore]

/-- `Nat.toDigitsCore` on a one-digit number. -/
theorem toDigitsCore_eq_one {f n : Nat} (ds : List Char) (h : n < 10) (hf : 0 < f) :
    Nat.toDigitsCore 10 f n ds = Nat.digitChar n :: ds := by
  obtain ⟨g, rfl⟩ : ∃ g, f = g + 1 := ⟨f - 1, by omega⟩
  rw [toDigitsCore_succ]
  have h10 : n / 10 = 0 := by omega
  have hm : n % 10 = n := by omega
  simp [h10, hm]

/-- `Nat.toDigitsCore` on a two-digit number, given enough fuel. -/
theorem toDigitsCore_eq_two {f n : Nat} (ds : List Char) (h1 : 10 ≤ n)
    (h2 : n < 100) (hf : n ≤ f) :
    Nat.toDigitsCore 10 f n ds
      = Nat.digitChar (n / 10) :: Nat.digitChar (n % 10) :: ds := by
  obtain ⟨g, rfl⟩ : ∃ g, f = g + 1 := ⟨f - 1, by omega⟩
  rw [toDigitsCore_succ]
  have h10 : ¬ (n / 10 = 0) := by omega
  rw [if_neg h10]
  exact toDigitsCore_eq_one _ (by omega) (by omega)

/-- `Nat.toDigitsCore` on a three-digit number, given enough fuel. -/
theorem toDigitsCore_eq_three {f n : Nat} (ds : List Char) (h1 : 100 ≤ n)
    (h2 : n < 1000) (hf : n ≤ f) :
    Nat.toDigitsCore 10 f n ds
      = Nat.digitChar (n / 100) :: Nat.digitChar (n / 10 % 10)
          :: Nat.digitChar (n % 10) :: ds := by
  obtain ⟨g, rfl⟩ : ∃ g, f = g + 1 := ⟨f - 1, by omega⟩
  rw [toDigitsCore_succ]
  have h10 : ¬ (n / 10 = 0) := by omega
  rw [if_neg h10]
  rw [toDigitsCore_eq_two _ (by omega) (by omega) (by omega)]
  have e1 : n / 10 / 10 = n / 100 := by omega
  have e2 : n / 10 % 10 = n / 10 % 10 := rfl
  rw [e1]

/-- `Nat.toDigitsCore` on a four-digit number, given enough fuel. -/
theorem toDigitsCore_eq_four {f n : Nat} (ds : List Char) (h1 : 1000 ≤ n)
    (h2 : n < 10000) (hf : n ≤ f) :
    Nat.toDigitsCore 10 f n ds
      = Nat.digitChar (n / 1000) :: Nat.digitChar (n / 100 % 10)
          :: Nat.digitChar (n / 10 % 10) :: Nat.digitChar (n % 10) :: ds := by
  obtain ⟨g, rfl⟩ : ∃ g, f = g + 1 := ⟨f - 1, by omega⟩
  rw [toDigitsCore_succ]
  have h10 : ¬ (n / 10 = 0) := by omega
  rw [if_neg h10]
  rw [toDigitsCore_eq_three _ (by omega) (by omega) (by omega)]
  have e1 : n / 10 / 100 = n / 1000 := by omega
  have e2 : n / 10 / 10 % 10 = n / 100 % 10 := by omega
  rw [e1, e2]

/-- `Nat.digitChar 0` is the padding character. -/
theorem digitChar_zero : Nat.digitChar 0 = '0' := by
  decide

/-- The characters of a generated code: exactly the four decimal digits of
the draw, most significant first. -/
theorem generate_code_data {n : Nat} (h : n < 10000) :
    (generate_code n).data
      = [Nat.digitChar (n / 1000 % 10), Nat.digitChar (n / 100 % 10),
         Nat.digitChar (n / 10 % 10), Nat.digitChar (n % 10)] := by
  by_cases c1 : n < 10
  · have hd : Nat.toDigits 10 n = [Nat.digitChar n] :=
      toDigitsCore_eq_one [] c1 (by omega)
    have e1 : n / 1000 % 10 = 0 := by omega
    have e2 : n / 100 % 10 = 0 := by omega
    have e3 : n / 10 % 10 = 0 := by omega
    have e4 : n % 10 = n := by omega
    rw [e1, e2, e3, e4]
    simp [generate_code, Nat.repr, hd, List.asString, String.data_append,
      String.length, digitChar_zero]
  · by_cases c2 : n < 100
    · have hd : Nat.toDigits 10 n
          = [Nat.digitChar (n / 10), Nat.digitChar (n % 10)] :=
        toDigitsCore_eq_two [] (by omega) c2 (by omega)
      have e1 : n / 1000 % 10 = 0 := by omega
      have e2 : n / 100 % 10 = 0 := by omega
      have e3 : n / 10 % 10 = n / 10 := by omega
      rw [e1, e2, e3]
      simp [generate_code, Nat.repr, hd, List.asString, String.data_append,
        String.length, digitChar_zero]
    · by_cases c3 : n < 1000
      · have hd : Nat.toDigits 10 n
            = [Nat.digitChar (n / 100), Nat.digitChar (n / 10 % 10),
               Nat.digitChar (n % 10)] :=
          toDigitsCore_eq_three [] (by omega) c3 (by omega)
        have e1 : n / 1000 % 10 = 0 := by omega
        have e2 : n / 100 % 10 = n / 100 := by omega
        rw [e1, e2]
        simp [generate_code, Nat.repr, hd, List.asString, String.data_append,
          String.length, digitChar_zero]
      · have hd : Nat.toDigits 10 n
            = [Nat.digitChar (n / 1000), Nat.digitChar (n / 100 % 10),
               Nat.digitChar (n / 10 % 10), Nat.digitChar (n % 10)] :=
          toDigitsCore_eq_four [] (by omega) h (by omega)
        have e1 : n / 1000 % 10 = n / 1000 := by omega
        rw [e1]
        simp [generate_code, Nat.repr, hd, List.asString, String.data_append,
          String.length, digitChar_zero]

/-- Every draw in [0, 9999] yields a code of length 4 made of decimal
digits whose numeric value is the draw itself. -/
theorem generate_code_spec {n : Nat} (h : n < 10000) :
    decimal_value (generate_code n) = n
    ∧ (generate_code n).length = 4
    ∧ (generate_code n).data.all Char.isDigit = true := by
  have hd := generate_code_data h
  have l1 : n / 1000 % 10 < 10 := Nat.mod_lt _ (by omega)
  have l2 : n / 100 % 10 < 10 := Nat.mod_lt _ (by omega)
  have l3 : n / 10 % 10 < 10 := Nat.mod_lt _ (by omega)
  have l4 : n % 10 < 10 := Nat.mod_lt _ (by omega)
  refine ⟨?_, ?_, ?_⟩
  · rw [decimal_value, hd]
    simp only [List.foldl]
    rw [digitChar_toNat l1, digitChar_toNat l2, digitChar_toNat l3,
      digitChar_toNat l4]
    omega
  · show (generate_code n).data.length = 4
    rw [hd]
    rfl
  · rw [hd]
    simp [digitChar_isDigit l1, digitChar_isDigit l2, digitChar_isDigit l3,
      digitChar_isDigit l4]

/-- A string of length 4 is four characters. -/
theorem data_of_length_four {s : String} (h : s.length = 4) :
    ∃ c1 c2 c3 c4, s.data = [c1, c2, c3, c4] := by
  have h4 : s.data.length = 4 := h
  obtain ⟨c1, t1, h1⟩ : ∃ c t, s.data = c :: t := by
    cases hd : s.data with
    | nil => rw [hd] at h4; simp at h4
    | cons c t => exact ⟨c, t, rfl⟩
  rw [h1] at h4
  simp only [List.length_cons, Nat.add_left_inj] at h4
  have h3 : t1.length = 3 := by omega
  obtain ⟨c2, c3, c4, ht⟩ := List.length_eq_three.mp h3
  exact ⟨c1, c2, c3, c4, by rw [h1, ht]⟩

/-- `decimal_value` of a four-character string, written out. -/
theorem decimal_value_four {c1 c2 c3 c4 : Char} {s : String}
    (h : s.data = [c1, c2, c3, c4]) :
    decimal_value s
      = (((c1.toNat - 48) * 10 + (c2.toNat - 48)) * 10 + (c3.toNat - 48)) * 10
          + (c4.toNat - 48) := by
  simp [decimal_value, h, List.foldl]

/-- Strings with equal character lists are equal. -/
theorem string_data_ext {s t : String} (h : s.data = t.data) : s = t := by
  cases s; cases t
  exact congrArg String.mk (by simpa using h)

/-- Characters with equal code points are equal. -/
theorem char_toNat_inj {c d : Char} (h : c.toNat = d.toNat) : c = d :=
  Char.ext (UInt32.ext h)

/-- C9: `_generate_code` maps every draw in [0, 9999] to its 4-character
zero-padded decimal representation — the result always has exactly 4
decimal-digit characters — and conversely every string of four decimal
digits ("0000" through "9999") is produced by some draw. -/
theorem generate_code_four_digits_and_reaches_all :
    (∀ n : Nat, n ≤ 9999 →
      (generate_code n).length = 4
      ∧ (generate_code n).data.all Char.isDigit = true)
    ∧ (∀ s : String, s.length = 4 → s.data.all Char.isDigit = true →
        ∃ n : Nat, n ≤ 9999 ∧ generate_code n = s) := by
  constructor
  · intro n hn
    have h := generate_code_spec (show n < 10000 by omega)
    exact ⟨h.2.1, h.2.2⟩
  · intro s hlen hdig
    obtain ⟨c1, c2, c3, c4, hd⟩ := data_of_length_four hlen
    have hdl : ∀ c ∈ s.data, c.isDigit = true := fun c hc => by
      simpa using List.all_eq_true.mp hdig c hc
    have b1 := char_isDigit_toNat (hdl c1 (by rw [hd]; simp))
    have b2 := char_isDigit_toNat (hdl c2 (by rw [hd]; simp))
    have b3 := char_isDigit_toNat (hdl c3 (by rw [hd]; simp))
    have b4 := char_isDigit_toNat (hdl c4 (by rw [hd]; simp))
    have hval := decimal_value_four hd
    have hn : decimal_value s < 10000 := by omega
    refine ⟨decimal_value s, by omega, ?_⟩
    have hspec := generate_code_spec hn
    obtain ⟨d1, d2, d3, d4, hd'⟩ := data_of_length_four hspec.2.1
    have hdl' : ∀ c ∈ (generate_code (decimal_value s)).data, c.isDigit = true :=
      fun c hc => by simpa using List.all_eq_true.mp hspec.2.2 c hc
    have e1 := char_isDigit_toNat (hdl' d1 (by rw [hd']; simp))
    have e2 := char_isDigit_toNat (hdl' d2 (by rw [hd']; simp))
    have e3 := char_isDigit_toNat (hdl' d3 (by rw [hd']; simp))
    have e4 := char_isDigit_toNat (hdl' d4 (by rw [hd']; simp))
    have hval' := decimal_value_four hd'
    rw [hspec.1] at hval'
    apply string_data_ext
    rw [hd', hd]
    have t1 : d1.toNat = c1.toNat := by omega
    have t2 : d2.toNat = c2.toNat := by omega
    have t3 : d3.toNat = c3.toNat := by omega
    have t4 : d4.toNat = c4.toNat := by omega
    rw [char_toNat_inj t1, char_toNat_inj t2, char_toNat_inj t3, char_toNat_inj t4]

/-- Witness for C9: the draw 7 yields a well-shaped code, and the code
"0042" is reached by some draw. -/
theorem generate_code_witness :
    ((generate_code 7).length = 4
      ∧ (generate_code 7).data.all Char.isDigit = true)
    ∧ ∃ n : Nat, n ≤ 9999 ∧ generate_code n = "0042" :=
  ⟨generate_code_four_digits_and_reaches_all.1 7 (by decide),
   generate_code_four_digits_and_reaches_all.2 "0042" (by decide) (by decide)⟩

end UserRegistration
